import Mathlib

/-!
Verification of the Scheduler-Management backend (src/backend/{scheduler,models,
main,crud}.py) against its natural-language specification.

The shallow embedding below translates the job-scheduling core:

* `validate_frequency_config`, `parseSchedulerCreate` — the pydantic model
  `SchedulerCreate` of models.py (its class bodies are interleaved in the file
  by an evident merge artifact; the fields `name`, `description`,
  `job_type : JobType`, `frequency : FrequencyType`, `frequency_config` and the
  `validate_frequency_config` validator are read off the shuffled blocks).
* `create_trigger`, `intervalTrigger` — `SchedulerManager._create_trigger`
  together with the relevant APScheduler trigger semantics (interval sum,
  zero-interval coercion, default start date `now + interval`).
* `SchedulerManager` and its operations — scheduler.py; the firing loop and the
  executor's `max_instances` bookkeeping are modelled as the step function
  `applyOp` on engine states.
* `execute_job`, `execute_job_by_type` — `_execute_job` / `_execute_job_by_type`,
  with the database log modelled as an explicit list of records and
  `create_log_db` / `job_execution_callback` from crud.py / main.py.
* `create_scheduler_endpoint`, `update_scheduler_endpoint`,
  `main_module_scheduler_manager`, `lifespan_startup` — the wiring in main.py.

Machine time is modelled as natural-number seconds.
-/

namespace SchedMgmt

abbrev Time := Nat

/-- A JSON-ish value stored in a `frequency_config` mapping. -/
inductive ConfigVal where
  | nat (n : Nat)
  | str (s : String)
  deriving DecidableEq, Repr

/-- `frequency_config`: mapping of string keys to values (first binding wins,
matching Python dict lookup on distinct keys). -/
abbrev FrequencyConfig := List (String × ConfigVal)

/-- `k in v` on a Python dict. -/
def hasKey (v : FrequencyConfig) (k : String) : Bool :=
  v.any (fun kv => kv.1 == k)

/-- Fetch an integer value under key `k`, if present. -/
def getNatKey (v : FrequencyConfig) (k : String) : Option Nat :=
  match v.find? (fun kv => kv.1 == k) with
  | some (_, .nat n) => some n
  | _ => none

/-- Integer value under `k`, defaulting to 0 (absent keyword argument). -/
def getNatD (v : FrequencyConfig) (k : String) : Nat :=
  (getNatKey v k).getD 0

/-- Fetch a string value under key `k`, if present. -/
def getStrKey (v : FrequencyConfig) (k : String) : Option String :=
  match v.find? (fun kv => kv.1 == k) with
  | some (_, .str s) => some s
  | _ => none

/-- The closed `JobType` enum of models.py. -/
inductive JobType where
  | email_notification
  | data_backup
  | report_generation
  | api_call
  | file_cleanup
  | custom
  deriving DecidableEq, Repr

def JobType.toString : JobType → String
  | .email_notification => "email_notification"
  | .data_backup => "data_backup"
  | .report_generation => "report_generation"
  | .api_call => "api_call"
  | .file_cleanup => "file_cleanup"
  | .custom => "custom"

/-- Pydantic coercion of a raw string into the `JobType` enum. -/
def JobType.ofString (s : String) : Option JobType :=
  if s == "email_notification" then some .email_notification
  else if s == "data_backup" then some .data_backup
  else if s == "report_generation" then some .report_generation
  else if s == "api_call" then some .api_call
  else if s == "file_cleanup" then some .file_cleanup
  else if s == "custom" then some .custom
  else none

/-- The `FrequencyType` enum of models.py. -/
inductive FrequencyType where
  | cron
  | interval
  | date
  deriving DecidableEq, Repr

def FrequencyType.toString : FrequencyType → String
  | .cron => "cron"
  | .interval => "interval"
  | .date => "date"

/-- Pydantic coercion of a raw string into the `FrequencyType` enum. -/
def FrequencyType.ofString (s : String) : Option FrequencyType :=
  if s == "cron" then some .cron
  else if s == "interval" then some .interval
  else if s == "date" then some .date
  else none

/-- `SchedulerCreate.validate_frequency_config` (models.py).  The validator
receives `values.get('frequency')`, which is absent (`none`) when the
`frequency` field itself failed validation, in which case the config is passed
through unchecked. -/
def validate_frequency_config (frequency : Option FrequencyType) (v : FrequencyConfig) :
    Except String FrequencyConfig :=
  match frequency with
  | none => .ok v
  | some .cron =>
      if hasKey v "cron_expression" then .ok v
      else .error "cron_expression is required for cron frequency"
  | some .interval =>
      if hasKey v "seconds" || hasKey v "minutes" || hasKey v "hours" || hasKey v "days"
      then .ok v
      else .error "At least one interval (seconds, minutes, hours, days) must be specified"
  | some .date =>
      if hasKey v "run_date" then .ok v
      else .error "run_date is required for date frequency"

/-- The raw request body of `POST /schedulers` before pydantic validation. -/
structure SchedulerCreateRaw where
  name : String
  description : Option String
  job_type : String
  frequency : String
  frequency_config : FrequencyConfig
  deriving DecidableEq, Repr

/-- A validated `SchedulerCreate` value. -/
structure SchedulerCreate where
  name : String
  description : Option String
  job_type : JobType
  frequency : FrequencyType
  frequency_config : FrequencyConfig
  deriving DecidableEq, Repr

/-- Pydantic validation of the `SchedulerCreate` request model: field
constraints, enum coercion of `job_type` and `frequency`, and the
`frequency_config` validator. -/
def parseSchedulerCreate (raw : SchedulerCreateRaw) : Except String SchedulerCreate :=
  if raw.name.length < 1 then
    .error "name: ensure this value has at least 1 characters"
  else if 200 < raw.name.length then
    .error "name: ensure this value has at most 200 characters"
  else if raw.description.any (fun d => 1000 < d.length) then
    .error "description: ensure this value has at most 1000 characters"
  else
    match JobType.ofString raw.job_type with
    | none => .error ("job_type: value is not a valid enumeration member: " ++ raw.job_type)
    | some jt =>
      match FrequencyType.ofString raw.frequency with
      | none => .error ("frequency: value is not a valid enumeration member: " ++ raw.frequency)
      | some fr =>
        match validate_frequency_config (some fr) raw.frequency_config with
        | .error e => .error e
        | .ok cfg => .ok ⟨raw.name, raw.description, jt, fr, cfg⟩

/-- A resolved APScheduler trigger. -/
inductive Trigger where
  | cron (expr : String) (timezone : String)
  | interval (intervalSeconds : Nat) (start : Time)
  | date (runDate : Time)
  deriving DecidableEq, Repr

/-- Total length in seconds of the timedelta built by APScheduler's
`IntervalTrigger.__init__` from its keyword arguments. -/
def intervalTotalSeconds (v : FrequencyConfig) : Nat :=
  604800 * getNatD v "weeks" + 86400 * getNatD v "days" + 3600 * getNatD v "hours"
    + 60 * getNatD v "minutes" + getNatD v "seconds"

/-- The numeric keyword arguments `IntervalTrigger` accepts (the repository
never passes `start_date`/`end_date`/`timezone`/`jitter`). -/
def intervalKwargs : List String := ["weeks", "days", "hours", "minutes", "seconds"]

/-- `IntervalTrigger(**frequency_config)`: an unexpected keyword raises
TypeError; a zero-length interval is coerced to one second; with no explicit
`start_date` the first fire time defaults to `now + interval`. -/
def intervalTrigger (v : FrequencyConfig) (now : Time) : Except String Trigger :=
  if v.all (fun kv => intervalKwargs.contains kv.1) then
    let total := intervalTotalSeconds v
    let total := if total == 0 then 1 else total
    .ok (.interval total (now + total))
  else
    .error "TypeError: __init__ got an unexpected keyword argument"

/-- `SchedulerManager._create_trigger` (scheduler.py lines 136-148): dispatch
on the frequency string; missing required keys raise KeyError; an unsupported
frequency raises ValueError. -/
def create_trigger (frequency : String) (frequency_config : FrequencyConfig) (now : Time) :
    Except String Trigger :=
  if frequency == "cron" then
    match getStrKey frequency_config "cron_expression" with
    | some expr => .ok (.cron expr ((getStrKey frequency_config "timezone").getD "UTC"))
    | none => .error "KeyError: cron_expression"
  else if frequency == "interval" then
    intervalTrigger frequency_config now
  else if frequency == "date" then
    match getNatKey frequency_config "run_date" with
    | some d => .ok (.date d)
    | none => .error "KeyError: run_date"
  else
    .error ("Unsupported frequency type: " ++ frequency)

/-- Fire times generated by a trigger (interval triggers are infinite, a date
trigger fires exactly once; cron fire times are opaque in this model and not
needed by any claim). -/
def Trigger.fireTime : Trigger → Nat → Option Time
  | .interval i s, n => some (s + n * i)
  | .date d, n => if n == 0 then some d else none
  | .cron _ _, _ => none

/-- A Scheduler row as stored by crud.py and handed to the engine as a dict. -/
structure StoredScheduler where
  id : String
  name : String
  job_type : String
  frequency : String
  frequency_config : FrequencyConfig
  is_active : Bool
  last_run : Option Time
  deriving DecidableEq, Repr

/-- One job registered inside APScheduler: `add_job(func=_execute_job, id=...,
args=[scheduler_id, job_type], replace_existing=True, max_instances=1)`. -/
structure APJob where
  id : String
  job_type : String
  trigger : Trigger
  max_instances : Nat
  paused : Bool
  deriving DecidableEq, Repr

/-- The only callback value ever passed to `set_log_callback` in the program:
`job_execution_callback` from main.py. -/
inductive Callback where
  | job_execution_callback
  deriving DecidableEq, Repr

/-- `SchedulerManager` state: the in-memory job registry, the executor's
per-job running-instance bookkeeping (`running` holds one entry per currently
running execution, keyed by job id), and the logging hook. -/
structure SchedulerManager where
  jobs : List APJob
  running : List String
  log_callback : Option Callback
  deriving DecidableEq, Repr

/-- `SchedulerManager.__init__`: empty memory jobstore, no running executions,
`self.log_callback = None` (scheduler.py line 38). -/
def SchedulerManager.init : SchedulerManager :=
  { jobs := [], running := [], log_callback := none }

/-- `job_defaults = {'coalesce': False, 'max_instances': 3}` from `__init__`;
`add_scheduler` overrides `max_instances` per job (see below). -/
def job_defaults_max_instances : Nat := 3

def job_defaults_coalesce : Bool := false

/-- `set_log_callback` (scheduler.py lines 51-53). -/
def SchedulerManager.set_log_callback (m : SchedulerManager) (c : Callback) : SchedulerManager :=
  { m with log_callback := some c }

def SchedulerManager.lookup (m : SchedulerManager) (id : String) : Option APJob :=
  m.jobs.find? (fun j => j.id == id)

/-- `add_job(..., replace_existing=True)`: any registration under the same id
is dropped and the new job stored. -/
def addJobReplacing (jobs : List APJob) (j : APJob) : List APJob :=
  jobs.filter (fun x => x.id != j.id) ++ [j]

/-- `SchedulerManager.add_scheduler` (scheduler.py lines 55-80): resolve the
trigger, then register the job with `replace_existing=True` and
`max_instances=1`; a trigger-resolution failure is logged and re-raised with
the registry untouched. -/
def SchedulerManager.add_scheduler (m : SchedulerManager) (data : StoredScheduler) (now : Time) :
    Except String SchedulerManager :=
  match create_trigger data.frequency data.frequency_config now with
  | .error e => .error e
  | .ok tr =>
      let j : APJob := { id := data.id, job_type := data.job_type, trigger := tr,
                         max_instances := 1, paused := false }
      .ok { m with jobs := addJobReplacing m.jobs j }

/-- `SchedulerManager.update_scheduler` (scheduler.py lines 82-99): re-resolve
the trigger and `modify_job(scheduler_id, trigger=trigger)` — only the trigger
is swapped, the stored args (scheduler_id, job_type) are untouched. -/
def SchedulerManager.update_scheduler (m : SchedulerManager) (data : StoredScheduler) (now : Time) :
    Except String SchedulerManager :=
  match create_trigger data.frequency data.frequency_config now with
  | .error e => .error e
  | .ok tr =>
      match m.lookup data.id with
      | none => .error ("JobLookupError: " ++ data.id)
      | some j => .ok { m with jobs := addJobReplacing m.jobs ({ j with trigger := tr }) }

/-- `SchedulerManager.restore_scheduler` (scheduler.py lines 101-107): calls
`add_scheduler`; any failure is logged and swallowed. -/
def SchedulerManager.restore_scheduler (m : SchedulerManager) (data : StoredScheduler) (now : Time) :
    SchedulerManager :=
  match m.add_scheduler data now with
  | .ok m1 => m1
  | .error _ => m

/-- `pause_scheduler`: `scheduler.pause_job(id)`; a missing id raises and the
state is unchanged. -/
def SchedulerManager.pause_scheduler (m : SchedulerManager) (id : String) : SchedulerManager :=
  { m with jobs := m.jobs.map (fun j => if j.id == id then ({ j with paused := true }) else j) }

/-- `resume_scheduler`: `scheduler.resume_job(id)`. -/
def SchedulerManager.resume_scheduler (m : SchedulerManager) (id : String) : SchedulerManager :=
  { m with jobs := m.jobs.map (fun j => if j.id == id then ({ j with paused := false }) else j) }

/-- `remove_scheduler`: `scheduler.remove_job(id)`; a running execution is not
cancelled, only the registration is deleted. -/
def SchedulerManager.remove_scheduler (m : SchedulerManager) (id : String) : SchedulerManager :=
  { m with jobs := m.jobs.filter (fun j => j.id != id) }

/-- Number of currently running executions of job `id`. -/
def runningCount (l : List String) (id : String) : Nat :=
  (l.filter (fun x => x == id)).length

/-- Events driving the engine: the add/update/restore/pause/resume/remove API
plus the timer loop's fire events and the executor's completion notices.  A
`fire` for a job at its `max_instances` ceiling is what APScheduler turns into
`MaxInstancesReachedError`: the submission is dropped, neither queued nor
retried. -/
inductive Op where
  | add (data : StoredScheduler) (now : Time)
  | update (data : StoredScheduler) (now : Time)
  | restore (data : StoredScheduler) (now : Time)
  | pause (id : String)
  | resume (id : String)
  | remove (id : String)
  | fire (id : String)
  | finish (id : String)
  deriving DecidableEq, Repr

/-- One engine step.  API errors leave the registry untouched (`add_scheduler`
re-raises after logging, the HTTP layer reports them); a fire event for a
paused or missing job is skipped; a fire event for a job with
`runningCount ≥ max_instances` is dropped. -/
def applyOp (m : SchedulerManager) : Op → SchedulerManager
  | .add d now =>
      match m.add_scheduler d now with
      | .ok m1 => m1
      | .error _ => m
  | .update d now =>
      match m.update_scheduler d now with
      | .ok m1 => m1
      | .error _ => m
  | .restore d now => m.restore_scheduler d now
  | .pause id => m.pause_scheduler id
  | .resume id => m.resume_scheduler id
  | .remove id => m.remove_scheduler id
  | .fire id =>
      match m.lookup id with
      | none => m
      | some j =>
          if j.paused then m
          else if j.max_instances ≤ runningCount m.running id then m
          else { m with running := id :: m.running }
  | .finish id => { m with running := m.running.erase id }

/-- Run a sequence of engine events from the freshly constructed manager. -/
def runOps (ops : List Op) : SchedulerManager :=
  ops.foldl applyOp SchedulerManager.init

/-- Outcome of one task body: Python code either returns or raises. -/
inductive TaskResult where
  | ok
  | failed (msg : String)
  deriving DecidableEq, Repr

/-- `SchedulerManager._execute_job_by_type` (scheduler.py lines 196-211):
dispatch on the job-type string.  The simulated bodies (email, backup, report,
cleanup, custom) always succeed; `api_call` performs external network I/O whose
outcome is the `apiResult` parameter; any other string raises
`ValueError("Unknown job type: ...")`. -/
def execute_job_by_type (apiResult : TaskResult) (job_type : String) : TaskResult :=
  if job_type == "email_notification" then .ok
  else if job_type == "data_backup" then .ok
  else if job_type == "report_generation" then .ok
  else if job_type == "api_call" then apiResult
  else if job_type == "file_cleanup" then .ok
  else if job_type == "custom" then .ok
  else .failed ("Unknown job type: " ++ job_type)

/-- An execution-log row (`LogTable` / `MongoLogDocument`); the generated uuid
is modelled as the row's insertion index, which keeps ids unique. -/
structure LogRecord where
  id : Nat
  scheduler_id : String
  job_type : String
  status : String
  message : Option String
  completed_at : Option Time
  duration : Option Nat
  deriving DecidableEq, Repr

/-- `create_log_db` (crud.py lines 136-179): inserts a fresh row; when the
status is not "running", `completed_at` is stamped with the current time.
Insert-only: no existing row is touched. -/
def create_log_db (db : List LogRecord) (scheduler_id job_type status : String)
    (message : Option String) (duration : Option Nat) (now : Time) : List LogRecord :=
  db ++ [{ id := db.length, scheduler_id := scheduler_id, job_type := job_type,
           status := status, message := message,
           completed_at := if status == "running" then none else some now,
           duration := duration }]

/-- `job_execution_callback` (main.py lines 242-248): forwards to
`create_log_db`; its own exceptions are logged and swallowed. -/
def job_execution_callback (db : List LogRecord) (scheduler_id job_type status : String)
    (message : Option String) (duration : Option Nat) (now : Time) : List LogRecord :=
  create_log_db db scheduler_id job_type status message duration now

/-- Invoke whichever function was stored in `self.log_callback`. -/
def invokeCallback (c : Callback) (db : List LogRecord) (scheduler_id job_type status : String)
    (message : Option String) (duration : Option Nat) (now : Time) : List LogRecord :=
  match c with
  | .job_execution_callback =>
      job_execution_callback db scheduler_id job_type status message duration now

/-- Result of one `_execute_job` run: the log rows after the run and the
exception (if any) that escapes `_execute_job` itself. -/
structure ExecOutcome where
  db : List LogRecord
  raised : Option String
  deriving DecidableEq, Repr

/-- `SchedulerManager._execute_job` (scheduler.py lines 150-194).  Every
logging site is guarded by `if self.log_callback:`.  On success a "success" row
is written with the elapsed duration; on failure the exception is caught, an
"error" row is written whose message is `"Job failed: " ++ str(e)` with the
duration set, and the exception is then re-raised (`raise`, line 194). -/
def execute_job (cb : Option Callback) (db : List LogRecord)
    (scheduler_id job_type : String) (startTime endTime : Time) (apiResult : TaskResult) :
    ExecOutcome :=
  let db1 := match cb with
    | some c => invokeCallback c db scheduler_id job_type "running"
        (some "Job execution started") none startTime
    | none => db
  match execute_job_by_type apiResult job_type with
  | .ok =>
      let duration := endTime - startTime
      let db2 := match cb with
        | some c => invokeCallback c db1 scheduler_id job_type "success"
            (some "Job completed successfully") (some duration) endTime
        | none => db1
      { db := db2, raised := none }
  | .failed m =>
      let duration := endTime - startTime
      let db2 := match cb with
        | some c => invokeCallback c db1 scheduler_id job_type "error"
            (some ("Job failed: " ++ m)) (some duration) endTime
        | none => db1
      { db := db2, raised := some m }

/-- The executor boundary: APScheduler's `run_coroutine_job` wraps the job
callable, catches any exception it raises (including the one `_execute_job`
re-raises), emits an EVENT_JOB_ERROR event and logs it; the scheduler and its
timer loop keep running. -/
structure ExecutorRun where
  db : List LogRecord
  engineRunning : Bool
  deriving DecidableEq, Repr

def run_job_at_executor (cb : Option Callback) (db : List LogRecord)
    (scheduler_id job_type : String) (startTime endTime : Time) (apiResult : TaskResult) :
    ExecutorRun :=
  let r := execute_job cb db scheduler_id job_type startTime endTime apiResult
  { db := r.db, engineRunning := true }

/-- The partial-update body accepted by `PUT /schedulers/{id}` — a plain dict,
not a validated `SchedulerCreate`. -/
structure SchedUpdate where
  name : Option String := none
  job_type : Option String := none
  frequency : Option String := none
  frequency_config : Option FrequencyConfig := none
  is_active : Option Bool := none
  deriving DecidableEq, Repr

/-- `update_scheduler_db` merging (crud.py lines 84-115): every supplied key is
written into the stored row verbatim, with no validation of any field. -/
def applyUpdate (row : StoredScheduler) (u : SchedUpdate) : StoredScheduler :=
  { row with
    name := u.name.getD row.name,
    job_type := u.job_type.getD row.job_type,
    frequency := u.frequency.getD row.frequency,
    frequency_config := u.frequency_config.getD row.frequency_config,
    is_active := u.is_active.getD row.is_active }

def replaceRow (db : List StoredScheduler) (row : StoredScheduler) : List StoredScheduler :=
  db.map (fun r => if r.id == row.id then row else r)

/-- `POST /schedulers` (main.py lines 94-112): FastAPI validates the request
body as `SchedulerCreate` before the handler runs; the handler then stores the
row (active, fresh uuid `newId`) and registers it with the scheduler manager.
Returns the HTTP outcome together with the manager and database afterwards. -/
def create_scheduler_endpoint (mgr : SchedulerManager) (db : List StoredScheduler)
    (raw : SchedulerCreateRaw) (newId : String) (now : Time) :
    Except String Unit × SchedulerManager × List StoredScheduler :=
  match parseSchedulerCreate raw with
  | .error e => (.error e, mgr, db)
  | .ok sc =>
      let row : StoredScheduler :=
        { id := newId, name := sc.name, job_type := sc.job_type.toString,
          frequency := sc.frequency.toString, frequency_config := sc.frequency_config,
          is_active := true, last_run := none }
      let db1 := db ++ [row]
      match mgr.add_scheduler row now with
      | .error e => (.error e, mgr, db1)
      | .ok mgr1 => (.ok (), mgr1, db1)

/-- `PUT /schedulers/{id}` (main.py lines 128-151): the body is a raw dict;
`update_scheduler_db` merges it into the stored row with no validation, then
the manager swaps the trigger. -/
def update_scheduler_endpoint (mgr : SchedulerManager) (db : List StoredScheduler)
    (sid : String) (u : SchedUpdate) (now : Time) :
    Except String Unit × SchedulerManager × List StoredScheduler :=
  match db.find? (fun r => r.id == sid) with
  | none => (.error "Scheduler not found", mgr, db)
  | some row =>
      let row1 := applyUpdate row u
      let db1 := replaceRow db row1
      match mgr.update_scheduler row1 now with
      | .error e => (.error e, mgr, db1)
      | .ok mgr1 => (.ok (), mgr1, db1)

/-- Module-level import of main.py: line 23 sets the global
`scheduler_manager = None`; lines 251-252 then run
`if scheduler_manager: scheduler_manager.set_log_callback(job_execution_callback)`
while the global is still `None`, so the branch is skipped. -/
def main_module_scheduler_manager : Option SchedulerManager :=
  let sm : Option SchedulerManager := none
  match sm with
  | some m => some (m.set_log_callback .job_execution_callback)
  | none => none

/-- `lifespan` startup (main.py lines 25-57): constructs a fresh
`SchedulerManager` (whose `log_callback` is `None`), starts it, and restores
every active stored scheduler via `restore_scheduler`; it never calls
`set_log_callback`. -/
def lifespan_startup (schedulers : List StoredScheduler) (now : Time) :
    Option SchedulerManager :=
  let m := SchedulerManager.init
  let m := schedulers.foldl
    (fun acc s => if s.is_active then acc.restore_scheduler s now else acc) m
  some m

/-- Shape of a spec-valid interval configuration (§6 of the spec): keys drawn
from {seconds, minutes, hours, days} with non-negative integer values, at least
one of them present. -/
def validIntervalShape (v : FrequencyConfig) : Bool :=
  v.all (fun kv =>
      (kv.1 == "seconds" || kv.1 == "minutes" || kv.1 == "hours" || kv.1 == "days")
      && (match kv.2 with | .nat _ => true | .str _ => false))
  && (hasKey v "seconds" || hasKey v "minutes" || hasKey v "hours" || hasKey v "days")

/-- Stated from the spec's words, for comparison with the code (claim C7): on
restore the interval schedule is anchored at the job's `last_run` instead of
the restore time; from registration it is anchored at registration time. -/
def specIntervalAnchor (last_run : Option Time) (now : Time) : Time :=
  match last_run with
  | some lr => lr
  | none => now

/-! ## Helper lemmas -/

instance exceptDecEq {ε α : Type} [DecidableEq ε] [DecidableEq α] :
    DecidableEq (Except ε α)
  | .error e1, .error e2 =>
      if h : e1 = e2 then isTrue (by rw [h]) else isFalse (by simp [h])
  | .error _, .ok _ => isFalse (by simp)
  | .ok _, .error _ => isFalse (by simp)
  | .ok a1, .ok a2 =>
      if h : a1 = a2 then isTrue (by rw [h]) else isFalse (by simp [h])

theorem runningCount_nil (id : String) : runningCount [] id = 0 := rfl

theorem runningCount_cons (a : String) (l : List String) (id : String) :
    runningCount (a :: l) id =
      if a == id then runningCount l id + 1 else runningCount l id := by
  simp only [runningCount, List.filter_cons]
  split <;> simp

theorem runningCount_erase_le (l : List String) (b id : String) :
    runningCount (l.erase b) id ≤ runningCount l id := by
  induction l with
  | nil => simp [List.erase_nil]
  | cons a l ih =>
      rw [List.erase_cons]
      split
      · rw [runningCount_cons]
        split <;> omega
      · rw [runningCount_cons, runningCount_cons]
        split <;> omega

theorem mem_addJobReplacing {jobs : List APJob} {j x : APJob}
    (hx : x ∈ addJobReplacing jobs j) : x ∈ jobs ∨ x = j := by
  unfold addJobReplacing at hx
  rcases List.mem_append.1 hx with h | h
  · exact .inl (List.mem_of_mem_filter h)
  · simp only [List.mem_singleton] at h
    exact .inr h

theorem lookup_addJobReplacing (jobs : List APJob) (j : APJob) :
    (addJobReplacing jobs j).find? (fun x => x.id == j.id) = some j := by
  unfold addJobReplacing
  induction jobs with
  | nil => simp
  | cons a l ih =>
      by_cases h : a.id == j.id
      · have hbne : (a.id != j.id) = false := by
          simp [bne, h]
        have hf : (a :: l).filter (fun x => x.id != j.id) =
            l.filter (fun x => x.id != j.id) := by
          simp [List.filter_cons, hbne]
        rw [hf]
        exact ih
      · have hfalse : (a.id == j.id) = false := by
          simpa using h
        have hbne : (a.id != j.id) = true := by
          simp [bne, hfalse]
        have hf : (a :: l).filter (fun x => x.id != j.id) =
            a :: l.filter (fun x => x.id != j.id) := by
          simp [List.filter_cons, hbne]
        rw [hf, List.cons_append, List.find?_cons]
        rw [hfalse]
        exact ih

/-- The engine invariant behind the overlap policy: every registered job was
registered with `max_instances = 1`, and no job id has more than one running
execution. -/
def PerJobInv (m : SchedulerManager) : Prop :=
  (∀ j ∈ m.jobs, j.max_instances = 1) ∧ ∀ id : String, runningCount m.running id ≤ 1

theorem perJobInv_init : PerJobInv SchedulerManager.init :=
  ⟨by intro j hj; simp [SchedulerManager.init] at hj,
   fun id => by simp [SchedulerManager.init, runningCount_nil]⟩

theorem add_scheduler_cases (m : SchedulerManager) (d : StoredScheduler) (now : Time) :
    (match m.add_scheduler d now with
      | .ok m1 => m1
      | .error _ => m) = m ∨
    ∃ tr, (match m.add_scheduler d now with
      | .ok m1 => m1
      | .error _ => m) =
        { m with jobs := addJobReplacing m.jobs (APJob.mk d.id d.job_type tr 1 false) } := by
  unfold SchedulerManager.add_scheduler
  cases create_trigger d.frequency d.frequency_config now with
  | error e => exact .inl rfl
  | ok tr => exact .inr ⟨tr, rfl⟩

theorem perJobInv_applyOp (m : SchedulerManager) (o : Op) (h : PerJobInv m) :
    PerJobInv (applyOp m o) := by
  obtain ⟨hjobs, hrun⟩ := h
  cases o with
  | add d now =>
      show PerJobInv (match m.add_scheduler d now with
        | .ok m1 => m1 | .error _ => m)
      rcases add_scheduler_cases m d now with heq | ⟨tr, heq⟩ <;> rw [heq]
      · exact ⟨hjobs, hrun⟩
      · refine ⟨?_, hrun⟩
        intro x hx
        rcases mem_addJobReplacing hx with hx | rfl
        · exact hjobs x hx
        · rfl
  | update d now =>
      show PerJobInv (match m.update_scheduler d now with
        | .ok m1 => m1 | .error _ => m)
      unfold SchedulerManager.update_scheduler
      cases create_trigger d.frequency d.frequency_config now with
      | error e => exact ⟨hjobs, hrun⟩
      | ok tr =>
          cases hl : m.lookup d.id with
          | none => exact ⟨hjobs, hrun⟩
          | some j =>
              refine ⟨?_, hrun⟩
              intro x hx
              rcases mem_addJobReplacing hx with hx | rfl
              · exact hjobs x hx
              · exact hjobs j (List.mem_of_find?_eq_some hl)
  | restore d now =>
      show PerJobInv (m.restore_scheduler d now)
      unfold SchedulerManager.restore_scheduler SchedulerManager.add_scheduler
      cases create_trigger d.frequency d.frequency_config now with
      | error e => exact ⟨hjobs, hrun⟩
      | ok tr =>
          refine ⟨?_, hrun⟩
          intro x hx
          rcases mem_addJobReplacing hx with hx | rfl
          · exact hjobs x hx
          · rfl
  | pause id =>
      refine ⟨?_, hrun⟩
      intro x hx
      simp only [applyOp, SchedulerManager.pause_scheduler, List.mem_map] at hx
      obtain ⟨a, ha, rfl⟩ := hx
      split <;> exact hjobs a ha
  | resume id =>
      refine ⟨?_, hrun⟩
      intro x hx
      simp only [applyOp, SchedulerManager.resume_scheduler, List.mem_map] at hx
      obtain ⟨a, ha, rfl⟩ := hx
      split <;> exact hjobs a ha
  | remove id =>
      refine ⟨?_, hrun⟩
      intro x hx
      simp only [applyOp, SchedulerManager.remove_scheduler] at hx
      exact hjobs x (List.mem_of_mem_filter hx)
  | fire id =>
      show PerJobInv (match m.lookup id with
        | none => m
        | some j =>
            if j.paused then m
            else if j.max_instances ≤ runningCount m.running id then m
            else { m with running := id :: m.running })
      cases hl : m.lookup id with
      | none => exact ⟨hjobs, hrun⟩
      | some j =>
          show PerJobInv (if j.paused = true then m
            else if j.max_instances ≤ runningCount m.running id then m
            else { m with running := id :: m.running })
          by_cases hp : j.paused
          · rw [if_pos hp]
            exact ⟨hjobs, hrun⟩
          · rw [if_neg hp]
            by_cases hc : j.max_instances ≤ runningCount m.running id
            · rw [if_pos hc]
              exact ⟨hjobs, hrun⟩
            · rw [if_neg hc]
              have hj1 : j.max_instances = 1 := hjobs j (List.mem_of_find?_eq_some hl)
              have hz : runningCount m.running id = 0 := by omega
              refine ⟨hjobs, ?_⟩
              intro id1
              rw [runningCount_cons]
              by_cases he : id == id1
              · rw [if_pos he]
                have heq : id = id1 := by simpa using he
                subst heq
                omega
              · rw [if_neg he]
                exact hrun id1
  | finish id =>
      refine ⟨hjobs, ?_⟩
      intro id1
      calc runningCount (m.running.erase id) id1 ≤ runningCount m.running id1 :=
            runningCount_erase_le _ _ _
        _ ≤ 1 := hrun id1

theorem perJobInv_runOps (ops : List Op) : PerJobInv (runOps ops) := by
  suffices h : ∀ m, PerJobInv m → PerJobInv (ops.foldl applyOp m) from
    h _ perJobInv_init
  induction ops with
  | nil => intro m hm; exact hm
  | cons o ops ih =>
      intro m hm
      exact ih _ (perJobInv_applyOp m o hm)

/-! ## Concrete fixtures used by witnesses and counterexamples -/

/-- A stored scheduler for a custom job firing every 5 seconds. -/
def schedJ1 : StoredScheduler :=
  { id := "j1", name := "n", job_type := "custom", frequency := "interval",
    frequency_config := [("seconds", .nat 5)], is_active := true, last_run := none }

/-- The manager right after `add_scheduler(schedJ1)` at time 0. -/
def mgrJ1 : SchedulerManager :=
  match SchedulerManager.init.add_scheduler schedJ1 0 with
  | .ok m => m
  | .error _ => SchedulerManager.init

/-- `schedJ1` resubmitted under the same id with a different job type. -/
def schedJ1backup : StoredScheduler := { schedJ1 with job_type := "data_backup" }

/-- A raw create request whose job_type is outside the closed set. -/
def rawBogusJobType : SchedulerCreateRaw :=
  { name := "n", description := none, job_type := "bogus", frequency := "interval",
    frequency_config := [("seconds", .nat 5)] }

/-- Register `schedJ1` and fire it once: one running execution. -/
def opsOneFire : List Op := [.add schedJ1 0, .fire "j1"]

/-! ## Claim theorems -/

/-- C1: for every registered job id, at most one execution of that job is
running at any instant over any event sequence, and a fire event arriving
while an execution of the same job is still running is dropped outright (the
engine state is unchanged: not queued, not retried).  `add_scheduler` passes
`max_instances=1`, overriding the `job_defaults` ceiling of 3, so APScheduler
refuses the second concurrent instance even during catch-up. -/
theorem running_executions_per_job_at_most_one (ops : List Op) (id : String) :
    runningCount (runOps ops).running id ≤ 1 ∧
    (1 ≤ runningCount (runOps ops).running id →
      applyOp (runOps ops) (.fire id) = runOps ops) := by
  obtain ⟨hjobs, hrun⟩ := perJobInv_runOps ops
  refine ⟨hrun id, ?_⟩
  intro hge
  show (match (runOps ops).lookup id with
    | none => runOps ops
    | some j =>
        if j.paused then runOps ops
        else if j.max_instances ≤ runningCount (runOps ops).running id then runOps ops
        else { runOps ops with running := id :: (runOps ops).running }) = runOps ops
  cases hl : (runOps ops).lookup id with
  | none => rfl
  | some j =>
      show (if j.paused = true then runOps ops
        else if j.max_instances ≤ runningCount (runOps ops).running id then runOps ops
        else { runOps ops with running := id :: (runOps ops).running }) = runOps ops
      have hj1 : j.max_instances = 1 := hjobs j (List.mem_of_find?_eq_some hl)
      by_cases hp : j.paused
      · rw [if_pos hp]
      · rw [if_neg hp, if_pos (by omega)]

/-- C1 witness: after registering the 5-second custom job and firing it once,
one execution is running and a second fire event leaves the engine state
unchanged. -/
theorem running_executions_per_job_at_most_one_witness :
    runningCount (runOps opsOneFire).running "j1" ≤ 1 ∧
      applyOp (runOps opsOneFire) (.fire "j1") = runOps opsOneFire :=
  ⟨(running_executions_per_job_at_most_one opsOneFire "j1").1,
   (running_executions_per_job_at_most_one opsOneFire "j1").2 (by decide)⟩

/-- C2: when the task body fails, `_execute_job` catches the exception at the
dispatch boundary, records (through the attached callback) a terminal error
row whose message is "Job failed: " followed by the failure description and
whose duration is set, and although line 194 re-raises, the executor boundary
catches it, so the engine keeps operating. -/
theorem task_failure_recorded_and_engine_continues
    (db : List LogRecord) (sid jt : String) (t0 t1 : Time) (r : TaskResult) (m : String)
    (h : execute_job_by_type r jt = .failed m) :
    (execute_job (some .job_execution_callback) db sid jt t0 t1 r).db =
      db ++ [{ id := db.length, scheduler_id := sid, job_type := jt, status := "running",
               message := some "Job execution started", completed_at := none,
               duration := none },
             { id := db.length + 1, scheduler_id := sid, job_type := jt, status := "error",
               message := some ("Job failed: " ++ m), completed_at := some t1,
               duration := some (t1 - t0) }] ∧
    (execute_job (some .job_execution_callback) db sid jt t0 t1 r).raised = some m ∧
    (run_job_at_executor (some .job_execution_callback) db sid jt t0 t1 r).engineRunning
      = true := by
  refine ⟨?_, ?_, rfl⟩
  · simp [execute_job, run_job_at_executor, invokeCallback, job_execution_callback,
      create_log_db, h]
  · simp [execute_job, invokeCallback, job_execution_callback, create_log_db, h]

/-- C2 witness: a failing api_call body at t0=0, t1=2 re-raises "boom" out of
`_execute_job` after recording the error row. -/
theorem task_failure_recorded_and_engine_continues_witness :
    (execute_job (some .job_execution_callback) [] "j1" "api_call" 0 2
        (.failed "boom")).raised = some "boom" :=
  (task_failure_recorded_and_engine_continues [] "j1" "api_call" 0 2 (.failed "boom")
    "boom" rfl).2.1

/-- C3 counterexample: one successful execution of the custom job (with the
callback attached) leaves TWO log rows, not one — a start row that still has
status "running" and a null completed_at forever, and a separate terminal row
— because `job_execution_callback` calls `create_log_db` at both ends and
`update_log_db` is never called. -/
theorem one_record_per_execution_refuted :
    ¬ ((execute_job (some .job_execution_callback) [] "j1" "custom" 0 1 .ok).db.length
        = 1) ∧
    (execute_job (some .job_execution_callback) [] "j1" "custom" 0 1 .ok).db.length = 2 ∧
    ((execute_job (some .job_execution_callback) [] "j1" "custom" 0 1 .ok).db.map
        LogRecord.status) = ["running", "success"] ∧
    ((execute_job (some .job_execution_callback) [] "j1" "custom" 0 1 .ok).db.map
        LogRecord.completed_at) = [none, some 1] := by
  decide

/-- C3 amended: each execution appends exactly two fresh immutable rows — a
start row (status running, null completed_at, null duration) and a terminal
row (status success or error, completed_at and duration set) — and mutates
nothing: prior rows, including the start row, are never updated. -/
theorem execution_appends_start_and_terminal_records
    (db : List LogRecord) (sid jt : String) (t0 t1 : Time) (r : TaskResult) :
    ∃ term : LogRecord,
      (execute_job (some .job_execution_callback) db sid jt t0 t1 r).db =
        db ++ [{ id := db.length, scheduler_id := sid, job_type := jt,
                 status := "running", message := some "Job execution started",
                 completed_at := none, duration := none },
               term] ∧
      (term.status = "success" ∨ term.status = "error") ∧
      term.completed_at = some t1 ∧
      term.duration = some (t1 - t0) := by
  cases h : execute_job_by_type r jt with
  | ok =>
      refine ⟨{ id := db.length + 1, scheduler_id := sid, job_type := jt,
                status := "success", message := some "Job completed successfully",
                completed_at := some t1, duration := some (t1 - t0) }, ?_, .inl rfl, rfl, rfl⟩
      simp [execute_job, invokeCallback, job_execution_callback, create_log_db, h]
  | failed m =>
      refine ⟨{ id := db.length + 1, scheduler_id := sid, job_type := jt,
                status := "error", message := some ("Job failed: " ++ m),
                completed_at := some t1, duration := some (t1 - t0) }, ?_, .inr rfl, rfl, rfl⟩
      simp [execute_job, invokeCallback, job_execution_callback, create_log_db, h]

/-- Inversion of a successful pydantic validation: the enum coercions
succeeded and the frequency_config validator accepted the config. -/
theorem parseSchedulerCreate_ok_inv {raw : SchedulerCreateRaw} {sc : SchedulerCreate}
    (h : parseSchedulerCreate raw = .ok sc) :
    JobType.ofString raw.job_type = some sc.job_type ∧
    FrequencyType.ofString raw.frequency = some sc.frequency ∧
    validate_frequency_config (some sc.frequency) raw.frequency_config =
      .ok sc.frequency_config := by
  unfold parseSchedulerCreate at h
  split at h
  · simp at h
  split at h
  · simp at h
  split at h
  · simp at h
  split at h
  · simp at h
  next jt hjt =>
    split at h
    · simp at h
    next fr hfr =>
      split at h
      next e hval => simp at h
      next cfg hval =>
        injection h with h1
        subst h1
        exact ⟨hjt, hfr, hval⟩

/-- C4: an add whose frequency_type is cron and whose frequency_config lacks
the key cron_expression fails synchronously with the ValidationError raised by
the config validator, and the job is never admitted: the manager and the
database are unchanged. -/
theorem cron_missing_expression_rejected
    (mgr : SchedulerManager) (db : List StoredScheduler) (raw : SchedulerCreateRaw)
    (newId : String) (now : Time)
    (hfreq : raw.frequency = "cron")
    (hmiss : hasKey raw.frequency_config "cron_expression" = false) :
    validate_frequency_config (some .cron) raw.frequency_config =
      .error "cron_expression is required for cron frequency" ∧
    ∃ e, create_scheduler_endpoint mgr db raw newId now = (.error e, mgr, db) := by
  have hval : validate_frequency_config (some .cron) raw.frequency_config =
      .error "cron_expression is required for cron frequency" := by
    simp [validate_frequency_config, hmiss]
  refine ⟨hval, ?_⟩
  cases hp : parseSchedulerCreate raw with
  | error e => exact ⟨e, by simp [create_scheduler_endpoint, hp]⟩
  | ok sc =>
      obtain ⟨-, hfr, hok⟩ := parseSchedulerCreate_ok_inv hp
      rw [hfreq] at hfr
      have hcron : sc.frequency = .cron := by
        simpa [FrequencyType.ofString] using hfr.symm
      rw [hcron, hval] at hok
      simp at hok

/-- C4 witness: the concrete scenario of the spec — cron frequency with an
empty config — is rejected and nothing is registered or stored. -/
theorem cron_missing_expression_rejected_witness :
    ∃ e, create_scheduler_endpoint SchedulerManager.init []
        ({ name := "n", description := none, job_type := "custom", frequency := "cron",
           frequency_config := [] }) "id1" 0 = (.error e, SchedulerManager.init, []) :=
  (cron_missing_expression_rejected SchedulerManager.init []
    ({ name := "n", description := none, job_type := "custom", frequency := "cron",
       frequency_config := [] }) "id1" 0 rfl rfl).2

/-- C5: an interval frequency_config containing none of seconds, minutes,
hours, days fails trigger resolution with the validator's ValidationError, and
the add pipeline rejects it with the system unchanged. -/
theorem interval_missing_all_keys_rejected
    (mgr : SchedulerManager) (db : List StoredScheduler) (raw : SchedulerCreateRaw)
    (newId : String) (now : Time)
    (hfreq : raw.frequency = "interval")
    (hmiss : (hasKey raw.frequency_config "seconds" || hasKey raw.frequency_config "minutes"
        || hasKey raw.frequency_config "hours" || hasKey raw.frequency_config "days")
        = false) :
    validate_frequency_config (some .interval) raw.frequency_config =
      .error "At least one interval (seconds, minutes, hours, days) must be specified" ∧
    ∃ e, create_scheduler_endpoint mgr db raw newId now = (.error e, mgr, db) := by
  have hval : validate_frequency_config (some .interval) raw.frequency_config =
      .error "At least one interval (seconds, minutes, hours, days) must be specified" := by
    unfold validate_frequency_config
    rw [hmiss]
    simp
  refine ⟨hval, ?_⟩
  cases hp : parseSchedulerCreate raw with
  | error e => exact ⟨e, by simp [create_scheduler_endpoint, hp]⟩
  | ok sc =>
      obtain ⟨-, hfr, hok⟩ := parseSchedulerCreate_ok_inv hp
      rw [hfreq] at hfr
      have hint : sc.frequency = .interval := by
        simpa [FrequencyType.ofString] using hfr.symm
      rw [hint, hval] at hok
      simp at hok

/-- C5 witness: an interval config that is empty is rejected with the system
unchanged. -/
theorem interval_missing_all_keys_rejected_witness :
    ∃ e, create_scheduler_endpoint SchedulerManager.init []
        ({ name := "n", description := none, job_type := "custom",
           frequency := "interval", frequency_config := [] }) "id1" 0
      = (.error e, SchedulerManager.init, []) :=
  (interval_missing_all_keys_rejected SchedulerManager.init []
    ({ name := "n", description := none, job_type := "custom", frequency := "interval",
       frequency_config := [] }) "id1" 0 rfl rfl).2

/-- C6 counterexample: the update endpoint takes a raw dict and validates
nothing, so updating the registered custom job with job_type "bogus" succeeds
(no synchronous error), the bogus tag is persisted, a restart restores it into
the registry, and the dispatcher first raises ValueError("Unknown job type:
bogus") at execution time — refuting "surfaced synchronously at add/update
time, never first raised at execution time". -/
theorem unknown_job_type_surfaced_at_update_refuted :
    (update_scheduler_endpoint mgrJ1 [schedJ1] "j1"
        ({ job_type := some "bogus" }) 10).1 = .ok () ∧
    ((update_scheduler_endpoint mgrJ1 [schedJ1] "j1"
        ({ job_type := some "bogus" }) 10).2.2.find?
          (fun r => r.id == "j1")).map StoredScheduler.job_type = some "bogus" ∧
    ((SchedulerManager.init.restore_scheduler
        (applyUpdate schedJ1 ({ job_type := some "bogus" })) 20).lookup "j1").map
      APJob.job_type = some "bogus" ∧
    execute_job_by_type .ok "bogus" = .failed "Unknown job type: bogus" := by
  decide

/-- C6 amended: a job_type outside the closed set is rejected synchronously at
add time (the create path validates the body against the closed enum, so the
job is never admitted and the system is unchanged), and every job_type in the
closed set dispatches without raising; but the update path performs no
job_type validation, so an unknown job_type introduced via update first raises
at execution time. -/
theorem unknown_job_type_rejected_at_add
    (mgr : SchedulerManager) (db : List StoredScheduler) (raw : SchedulerCreateRaw)
    (newId : String) (now : Time)
    (h : JobType.ofString raw.job_type = none) :
    (∃ e, create_scheduler_endpoint mgr db raw newId now = (.error e, mgr, db)) ∧
    ∀ jt : JobType, execute_job_by_type .ok jt.toString = .ok := by
  constructor
  · cases hp : parseSchedulerCreate raw with
    | error e => exact ⟨e, by simp [create_scheduler_endpoint, hp]⟩
    | ok sc =>
        obtain ⟨hjt, -, -⟩ := parseSchedulerCreate_ok_inv hp
        rw [h] at hjt
        simp at hjt
  · intro jt
    cases jt <;> rfl

/-- C6 amended witness: the bogus job_type is rejected at add time with
nothing registered or stored. -/
theorem unknown_job_type_rejected_at_add_witness :
    ∃ e, create_scheduler_endpoint SchedulerManager.init [] rawBogusJobType "id1" 0
      = (.error e, SchedulerManager.init, []) :=
  (unknown_job_type_rejected_at_add SchedulerManager.init [] rawBogusJobType "id1" 0
    rfl).1

/-- C7 counterexample: restoring the 5-second job whose last_run is 0 at time
100 anchors the trigger at the restore time (first fire 105), not at last_run
(which would put the first fire at 5): `restore_scheduler` just calls
`add_scheduler` and never reads last_run. -/
theorem interval_restore_from_last_run_refuted :
    ((SchedulerManager.init.restore_scheduler
        ({ schedJ1 with last_run := some 0 }) 100).lookup "j1").map APJob.trigger
      = some (.interval 5 105) ∧
    specIntervalAnchor (some 0) 100 + 5 = 5 ∧
    ¬ (((SchedulerManager.init.restore_scheduler
        ({ schedJ1 with last_run := some 0 }) 100).lookup "j1").map APJob.trigger
      = some (.interval 5 (specIntervalAnchor (some 0) 100 + 5))) := by
  decide

/-- C7 amended: for every spec-valid interval configuration with a positive
total, the resolved trigger is an infinite sequence of fire times spaced by
the sum of the given seconds, minutes, hours and days, anchored at the
(re-)registration time with the first fire one interval later; restore behaves
exactly like add and does not consult last_run (a zero total is coerced to one
second by the trigger). -/
theorem interval_trigger_spacing_and_restore
    (cfg : FrequencyConfig) (now : Time)
    (hshape : validIntervalShape cfg = true)
    (hpos : 0 < intervalTotalSeconds cfg) :
    create_trigger "interval" cfg now =
      .ok (.interval (intervalTotalSeconds cfg) (now + intervalTotalSeconds cfg)) ∧
    intervalTotalSeconds cfg =
      86400 * getNatD cfg "days" + 3600 * getNatD cfg "hours" + 60 * getNatD cfg "minutes"
        + getNatD cfg "seconds" ∧
    (∀ n : Nat,
      Trigger.fireTime (.interval (intervalTotalSeconds cfg) (now + intervalTotalSeconds cfg))
        n = some (now + (n + 1) * intervalTotalSeconds cfg)) ∧
    (∀ (s : StoredScheduler) (lr : Option Time) (m : SchedulerManager),
      m.restore_scheduler ({ s with last_run := lr }) now =
        m.restore_scheduler ({ s with last_run := none }) now) := by
  have hall : ∀ kv ∈ cfg,
      (kv.1 == "seconds" || kv.1 == "minutes" || kv.1 == "hours" || kv.1 == "days")
        = true := by
    intro kv hkv
    rw [validIntervalShape, Bool.and_eq_true, List.all_eq_true] at hshape
    have h2 := hshape.1 kv hkv
    rw [Bool.and_eq_true] at h2
    exact h2.1
  have hweeks : getNatD cfg "weeks" = 0 := by
    unfold getNatD getNatKey
    cases hf : cfg.find? (fun kv => kv.1 == "weeks") with
    | none => rfl
    | some kv =>
        have hm := List.mem_of_find?_eq_some hf
        have hkey : kv.1 = "weeks" := by
          simpa using List.find?_some hf
        have := hall kv hm
        rw [hkey] at this
        simp at this
  refine ⟨?_, ?_, ?_, ?_⟩
  · unfold create_trigger intervalTrigger
    have hkw : cfg.all (fun kv => intervalKwargs.contains kv.1) = true := by
      rw [List.all_eq_true]
      intro kv hkv
      have h4 := hall kv hkv
      rw [Bool.or_eq_true, Bool.or_eq_true, Bool.or_eq_true] at h4
      rcases h4 with ((h7 | h7) | h7) | h7
      · have hk : kv.1 = "seconds" := by simpa using h7
        simp [intervalKwargs, hk]
      · have hk : kv.1 = "minutes" := by simpa using h7
        simp [intervalKwargs, hk]
      · have hk : kv.1 = "hours" := by simpa using h7
        simp [intervalKwargs, hk]
      · have hk : kv.1 = "days" := by simpa using h7
        simp [intervalKwargs, hk]
    rw [if_neg (by decide), if_pos (by decide), hkw]
    simp only [if_true]
    have hz : (intervalTotalSeconds cfg == 0) = false := by
      simp
      omega
    rw [hz]
    simp
  · unfold intervalTotalSeconds
    rw [hweeks]
    ring
  · intro n
    unfold Trigger.fireTime
    ring_nf
  · intro s lr m
    rfl

/-- C7 amended witness: the 5-second config resolves at time 100 to an
interval trigger of 5 seconds starting at 105. -/
theorem interval_trigger_spacing_and_restore_witness :
    create_trigger "interval" [("seconds", ConfigVal.nat 5)] 100 =
      .ok (.interval 5 105) :=
  (interval_trigger_spacing_and_restore [("seconds", ConfigVal.nat 5)] 100
    (by decide) (by decide)).1

/-- C8 counterexample: re-adding id "j1" with job_type data_backup replaces
the whole registration (the registry then runs data_backup), whereas
update_scheduler on the same data only swaps the trigger and keeps the old
args (the registry still runs custom) — so a duplicate add does NOT have the
same semantics as update. -/
theorem duplicate_add_same_as_update_refuted :
    (match mgrJ1.add_scheduler schedJ1backup 50 with
      | .ok m => (m.lookup "j1").map APJob.job_type
      | .error _ => none) = some "data_backup" ∧
    (match mgrJ1.update_scheduler schedJ1backup 50 with
      | .ok m => (m.lookup "j1").map APJob.job_type
      | .error _ => none) = some "custom" ∧
    mgrJ1.add_scheduler schedJ1backup 50 ≠ mgrJ1.update_scheduler schedJ1backup 50 := by
  decide

/-- C8 amended: an add whose job id is already registered succeeds (given a
valid trigger config) and replaces the prior registration entirely with the
new trigger and metadata — `replace_existing=True` — rather than failing or
keeping the old registration; unlike update_scheduler, which swaps only the
trigger and keeps the previously registered args. -/
theorem duplicate_add_replaces_registration
    (m : SchedulerManager) (data : StoredScheduler) (now : Time) (tr : Trigger)
    (_hdup : (m.lookup data.id).isSome = true)
    (htr : create_trigger data.frequency data.frequency_config now = .ok tr) :
    ∃ m1, m.add_scheduler data now = .ok m1 ∧
      m1.lookup data.id = some (APJob.mk data.id data.job_type tr 1 false) ∧
      m1.running = m.running ∧
      m1.log_callback = m.log_callback := by
  unfold SchedulerManager.add_scheduler
  rw [htr]
  refine ⟨_, rfl, ?_, rfl, rfl⟩
  exact lookup_addJobReplacing m.jobs (APJob.mk data.id data.job_type tr 1 false)

/-- C8 amended witness: re-adding "j1" with the data_backup payload at time 50
replaces the registration with the new job type and trigger. -/
theorem duplicate_add_replaces_registration_witness :
    ∃ m1, mgrJ1.add_scheduler schedJ1backup 50 = .ok m1 ∧
      m1.lookup "j1" = some (APJob.mk "j1" "data_backup" (.interval 5 55) 1 false) ∧
      m1.running = mgrJ1.running ∧
      m1.log_callback = mgrJ1.log_callback :=
  duplicate_add_replaces_registration mgrJ1 schedJ1backup 50 (.interval 5 55)
    (by decide) (by decide)

theorem restore_preserves_log_callback (m : SchedulerManager) (s : StoredScheduler)
    (now : Time) :
    (m.restore_scheduler s now).log_callback = m.log_callback := by
  unfold SchedulerManager.restore_scheduler SchedulerManager.add_scheduler
  cases create_trigger s.frequency s.frequency_config now <;> rfl

theorem lifespan_foldl_log_callback (ss : List StoredScheduler) (m : SchedulerManager)
    (now : Time) :
    (ss.foldl (fun acc s => if s.is_active then acc.restore_scheduler s now else acc)
        m).log_callback = m.log_callback := by
  induction ss generalizing m with
  | nil => rfl
  | cons s ss ih =>
      rw [List.foldl_cons, ih]
      by_cases h : s.is_active
      · rw [if_pos h, restore_preserves_log_callback]
      · rw [if_neg h]

/-- C9: the module-level guard `if scheduler_manager:` runs at import time
while the global is still None, so `set_log_callback` is skipped; the lifespan
startup builds a fresh manager (log_callback = None) and never sets the
callback either; hence the manager's log_callback is None for the whole
process lifetime and `_execute_job` never invokes the execution-history
callback (the log store is untouched by any run). -/
theorem log_callback_stays_none
    (schedulers : List StoredScheduler) (now : Time) (db : List LogRecord)
    (sid jt : String) (t0 t1 : Time) (r : TaskResult) :
    main_module_scheduler_manager = none ∧
    (lifespan_startup schedulers now).map SchedulerManager.log_callback = some none ∧
    (execute_job none db sid jt t0 t1 r).db = db := by
  refine ⟨rfl, ?_, ?_⟩
  · show some (SchedulerManager.log_callback _) = some none
    rw [lifespan_foldl_log_callback]
    rfl
  · cases h : execute_job_by_type r jt <;> simp [execute_job, h]

/-- C10: with log_callback = None, `_execute_job` still dispatches the task
body and its outcome is exactly the body's outcome — every logging site is
guarded by `if self.log_callback:`, so the absence of a recorder writes
nothing and never crashes an execution (a success run raises nothing; a
failure re-raises only the body's own exception). -/
theorem none_callback_execution_unaffected
    (db : List LogRecord) (sid jt : String) (t0 t1 : Time) (r : TaskResult) :
    (execute_job none db sid jt t0 t1 r).db = db ∧
    (execute_job none db sid jt t0 t1 r).raised =
      (match execute_job_by_type r jt with
        | .ok => none
        | .failed m => some m) ∧
    (execute_job_by_type r jt = .ok →
      (execute_job none db sid jt t0 t1 r).raised = none) := by
  refine ⟨?_, ?_, ?_⟩
  · cases h : execute_job_by_type r jt <;> simp [execute_job, h]
  · cases h : execute_job_by_type r jt <;> simp [execute_job, h]
  · intro h
    simp [execute_job, h]

/-- C10 witness: a fired custom job with no recorder attached completes
normally, writing nothing. -/
theorem none_callback_execution_unaffected_witness :
    (execute_job none [] "j1" "custom" 0 1 .ok).db = ([] : List LogRecord) ∧
      (execute_job none [] "j1" "custom" 0 1 .ok).raised = none :=
  ⟨(none_callback_execution_unaffected [] "j1" "custom" 0 1 .ok).1,
   (none_callback_execution_unaffected [] "j1" "custom" 0 1 .ok).2.2 rfl⟩

end SchedMgmt
